import Mathlib

/-!
Verification of the game-nerd-bot tool-calling core against its
natural-language specification.

The development shallowly embeds the Python sources:

* `src/database.py` : the retrying HTTP client `Database._make_request_with_retry`
  (modelled over an oracle assigning each attempt index a transport outcome),
* `src/classes.py`  : the payload normalizers
  `GameDetailsResponse.create_game_objects_from_search_results` and
  `GameDescriptionResponse.create_description_response_from_json`,
* `src/tools.py`    : the tool handlers `get_game_description`,
  `find_game_by_name`, `find_multiple_games` and `_normalize_list_param`,
* `src/app.py`      : `handle_tool_calls` and the `chat` orchestration loop.

Python dict/JSON values are embedded as the inductive `Json`.  Operations that
can raise in Python (attribute access on a non-dict, iteration of a non-list,
pydantic validation) return `Except String`; a `.error` value models a raised
exception, an `.ok` value a normal return.
-/

/-- JSON values as produced by `response.json()` and passed around as Python
dicts.  Floats do not occur in any code path the claims touch and are not
modelled. -/
inductive Json where
  | null
  | bool (b : Bool)
  | int (n : Int)
  | str (s : String)
  | arr (items : List Json)
  | obj (fields : List (String × Json))

/-- Python truthiness (`bool(x)`) for the embedded values: `None`, `False`,
`0`, `""`, `[]` and the empty dict are falsy, everything else truthy. -/
def Json.truthy : Json → Bool
  | .null => false
  | .bool b => b
  | .int n => n != 0
  | .str s => s != ""
  | .arr xs => !xs.isEmpty
  | .obj fs => !fs.isEmpty

/-- First-match association-list lookup, modelling Python dict key lookup
(keys of the dicts built by the source are unique). -/
def assocLookup : List (String × Json) → String → Option Json
  | [], _ => none
  | (k, v) :: rest, key => if k = key then some v else assocLookup rest key

/-- Model of `d.get(k)` : returns the value, `None` when the key is absent, and raises
`AttributeError` when the receiver is not a dict (e.g. `None.get(...)`). -/
def Json.get? : Json → String → Except String Json
  | .obj fs, k => .ok ((assocLookup fs k).getD .null)
  | _, _ => .error ("AttributeError")

/-- Model of `d.get(k, default)` : like `Json.get?` but with an explicit default for an
absent key.  A key that is present with value `None` still yields `None`. -/
def Json.getOr : Json → String → Json → Except String Json
  | .obj fs, k, d => .ok ((assocLookup fs k).getD d)
  | _, _, _ => .error ("AttributeError")

/-- Python `str(x)` as used inside the f-strings of the handlers.  Container
renderings are abbreviated; no claim inspects them. -/
def pyStr : Json → String
  | .null => "None"
  | .bool b => if b then ("True") else ("False")
  | .int n => toString n
  | .str s => s
  | .arr _ => "[...]"
  | .obj _ => "\x7b...\x7d"

/-- Model of `str(last_error)` where `last_error` is an exception or `None`:
`str(None)` is the string `None`, `str(exc)` is the transport error message. -/
def pyStrOption : Option String → String
  | none => "None"
  | some s => s

/-- Minimal JSON string escaping for `json.dumps` (quote and backslash; the
strings the claims exercise contain neither). -/
def escapeChar (c : Char) : String :=
  if c = '"' then ("\\\"") else if c = '\\' then ("\\\\") else String.singleton c

/-- Escape a list of characters for inclusion in a JSON literal. -/
def escapeList : List Char → String
  | [] => ""
  | c :: rest => escapeChar c ++ escapeList rest

/-- Escape each character of a string for inclusion in a JSON literal. -/
def escapeString (s : String) : String :=
  escapeList s.data

mutual

/-- Model of `json.dumps` with the default separators, used by `handle_tool_calls` to
serialize a tool result envelope into the ToolResult message content. -/
def Json.dumps : Json → String
  | .null => "null"
  | .bool b => if b then ("true") else ("false")
  | .int n => toString n
  | .str s => "\"" ++ escapeString s ++ "\""
  | .arr xs => "[" ++ dumpsItems xs ++ "]"
  | .obj fs => "\x7b" ++ dumpsFields fs ++ "\x7d"

/-- Comma-separated rendering of a JSON array body. -/
def dumpsItems : List Json → String
  | [] => ""
  | [x] => Json.dumps x
  | x :: y :: rest => Json.dumps x ++ ", " ++ dumpsItems (y :: rest)

/-- Comma-separated rendering of a JSON object body. -/
def dumpsFields : List (String × Json) → String
  | [] => ""
  | [(k, v)] => "\"" ++ escapeString k ++ "\": " ++ Json.dumps v
  | (k, v) :: f :: rest =>
      "\"" ++ escapeString k ++ "\": " ++ Json.dumps v ++ ", " ++ dumpsFields (f :: rest)

end

/-!
## Catalogue Client : `Database._make_request_with_retry` (src/database.py)

The HTTP layer is modelled by an oracle mapping the 0-indexed attempt number
to the outcome of `self.http_session.get(...)` followed by
`response.raise_for_status()` : either a decoded JSON body (2xx) or a raised
`requests.RequestException` carrying a message.  `random.uniform(0, 0.1)` is
modelled by a jitter function giving the value drawn before each retry, and
`time.sleep` by recording the slept delay.
-/

/-- Outcome of one GET attempt: a decoded 2xx JSON body, or a raised
`requests.RequestException` with message `msg` (connection error, timeout, or
non-2xx status via `raise_for_status`). -/
inductive AttemptOutcome where
  | success (body : Json)
  | failure (msg : String)

/-- What one call of `_make_request_with_retry` does: the returned envelope,
the number of GET attempts performed, and the backoff delays slept between
attempts, in order. -/
structure RetryResult where
  envelope : Json
  attempts : Nat
  delays : List ℚ

/-- The retry loop of `_make_request_with_retry`.  `remaining` is the number
of loop iterations still available (initially `max_retries`), `attempt` the
0-indexed attempt about to run, `lastError` the message of the last caught
exception.  On success it returns the success envelope immediately; on
failure it sleeps `base_delay * 2 ^ attempt + jitter attempt` unless this was
the final attempt; once all iterations are spent it returns the failure
envelope, whose message key is `error`. -/
def retryGo (oracle : Nat → AttemptOutcome) (baseDelay : ℚ) (jitter : Nat → ℚ) :
    Nat → Nat → Option String → RetryResult
  | 0, _, lastError =>
      ⟨Json.obj [("success", Json.bool false), ("error", Json.str (pyStrOption lastError))],
        0, []⟩
  | remaining + 1, attempt, _ =>
      match oracle attempt with
      | .success body =>
          ⟨Json.obj [("success", Json.bool true), ("results", body)], 1, []⟩
      | .failure msg =>
          let rest := retryGo oracle baseDelay jitter remaining (attempt + 1) (some msg)
          if 0 < remaining then
            ⟨rest.envelope, rest.attempts + 1,
              (baseDelay * 2 ^ attempt + jitter attempt) :: rest.delays⟩
          else
            ⟨rest.envelope, rest.attempts + 1, rest.delays⟩

/-- Embedding of `Database._make_request_with_retry(url, params, max_retries, base_delay)`
with the HTTP layer abstracted into `oracle`.  The source defaults are
`max_retries = 3` and `base_delay = 1.0`. -/
def make_request_with_retry (oracle : Nat → AttemptOutcome) (maxRetries : Nat)
    (baseDelay : ℚ) (jitter : Nat → ℚ) : RetryResult :=
  retryGo oracle baseDelay jitter maxRetries 0 none

/-!
## Lookup Normalizer (src/classes.py)

`GameDetailsResponse.create_game_objects_from_search_results` and
`GameDescriptionResponse.create_description_response_from_json` are embedded
over `Json`.  Pydantic field validation is modelled strictly (a present,
truthy value must already have the declared type); the numeric-string
coercions of pydantic lax mode are not modelled, and no claim touches them.
-/

/-- The canonical game record built by
`GameDetailsResponse.create_game_objects_from_search_results`. -/
structure GameDetailsResponse where
  name : String
  game_id : Int
  average_playtime : Int
  platforms : List String
  stores : List String
  genres : List String
  released : String
  metacritic_score : Option Int
  esrb_rating : Option String

/-- The record built by
`GameDescriptionResponse.create_description_response_from_json`. -/
structure GameDescriptionResponse where
  name : String
  game_id : Int
  description : String

/-- Render an optional value into `Json` for `model_dump`. -/
def optionToJson (f : α → Json) : Option α → Json
  | none => Json.null
  | some a => f a

/-- Embedding of `GameDetailsResponse.model_dump()` : the pydantic model as a plain dict. -/
def GameDetailsResponse.model_dump (g : GameDetailsResponse) : Json :=
  Json.obj [("name", Json.str g.name), ("game_id", Json.int g.game_id),
    ("average_playtime", Json.int g.average_playtime),
    ("platforms", Json.arr (g.platforms.map Json.str)),
    ("stores", Json.arr (g.stores.map Json.str)),
    ("genres", Json.arr (g.genres.map Json.str)),
    ("released", Json.str g.released),
    ("metacritic_score", optionToJson Json.int g.metacritic_score),
    ("esrb_rating", optionToJson Json.str g.esrb_rating)]

/-- Embedding of `GameDescriptionResponse.model_dump()`. -/
def GameDescriptionResponse.model_dump (g : GameDescriptionResponse) : Json :=
  Json.obj [("name", Json.str g.name), ("game_id", Json.int g.game_id),
    ("description", Json.str g.description)]

/-- Model of `payload.get(k) or ""` fed to a pydantic `str` field: a falsy value
(absent key, `None`, `""`, `0`, `False`) yields `""`; a truthy non-string is
rejected by validation (a raised fault). -/
def strFieldOr (v : Json) : Except String String :=
  if v.truthy then
    match v with
    | .str s => .ok s
    | _ => .error ("ValidationError")
  else .ok ("")

/-- Model of `payload.get(k) or 0` fed to a pydantic `int` field (also covering the
`int(... or 0)` conversion on `playtime`, which is the identity on ints). -/
def intFieldOr (v : Json) : Except String Int :=
  if v.truthy then
    match v with
    | .int n => .ok n
    | _ => .error ("ValidationError")
  else .ok 0

/-- A value passed through unchanged to a pydantic `int | None` field
(`metacritic`). -/
def optIntField (v : Json) : Except String (Option Int) :=
  match v with
  | .null => .ok none
  | .int n => .ok (some n)
  | _ => .error ("ValidationError")

/-- A value passed through unchanged to a pydantic `str | None` field
(`esrb_rating`). -/
def optStrField (v : Json) : Except String (Option String) :=
  match v with
  | .null => .ok none
  | .str s => .ok (some s)
  | _ => .error ("ValidationError")

/-- Model of `result.get(k) or []` followed by iteration: a falsy value yields the
empty list, a truthy list yields its items, and any truthy non-list raises
(iterating it either fails outright or produces elements on which the
subsequent `.get` raises `AttributeError`). -/
def listFieldOr (v : Json) : Except String (List Json) :=
  if v.truthy then
    match v with
    | .arr xs => .ok xs
    | _ => .error ("TypeError")
  else .ok []

/-- The list comprehension
`[e.get(inner, \x7b\x7d).get("name") for e in entries if e.get(inner, \x7b\x7d).get("name")]`
used for platform and store names: for each entry, fetch the wrapping
sub-object (defaulting to an empty dict when the key is absent), fetch its
`name`, and keep it when truthy.  An entry that is not a dict, or whose
wrapper key is present but holds a non-dict (for example `None`), raises
`AttributeError`. -/
def collectWrappedNames (inner : String) : List Json → Except String (List Json)
  | [] => .ok []
  | e :: rest => do
      let sub ← e.getOr inner (Json.obj [])
      let name ← sub.get? ("name")
      let tail ← collectWrappedNames inner rest
      .ok (if name.truthy then name :: tail else tail)

/-- The list comprehension
`[e.get("name") for e in entries if e.get("name")]` used for genre names. -/
def collectNames : List Json → Except String (List Json)
  | [] => .ok []
  | e :: rest => do
      let name ← e.get? ("name")
      let tail ← collectNames rest
      .ok (if name.truthy then name :: tail else tail)

/-- Validation of the collected name values against the pydantic field type
`list[str]`. -/
def validateStrList : List Json → Except String (List String)
  | [] => .ok []
  | .str s :: rest => do
      let tail ← validateStrList rest
      .ok (s :: tail)
  | _ :: _ => .error ("ValidationError")

/-- The `esrb_rating` extraction: read `result.get("esrb_rating")`, and only
when it is a dict read its `name_en`; otherwise the name stays `None`. -/
def extractEsrb (result : Json) : Except String Json := do
  let data ← result.get? ("esrb_rating")
  match data with
  | .obj fs => .ok ((assocLookup fs ("name_en")).getD .null)
  | _ => .ok .null

/-- The per-record body of
`GameDetailsResponse.create_game_objects_from_search_results` : nested name
extraction for platforms, stores and genres, the ESRB lookup, then the
pydantic construction with its field defaults. -/
def createGameFromResult (result : Json) : Except String GameDetailsResponse := do
  let platformEntries ← listFieldOr (← result.get? ("platforms"))
  let platformNames ← collectWrappedNames ("platform") platformEntries
  let storeEntries ← listFieldOr (← result.get? ("stores"))
  let storeNames ← collectWrappedNames ("store") storeEntries
  let genreEntries ← listFieldOr (← result.get? ("genres"))
  let genreNames ← collectNames genreEntries
  let esrbName ← extractEsrb result
  let name ← strFieldOr (← result.get? ("name"))
  let gameId ← intFieldOr (← result.get? ("id"))
  let playtime ← intFieldOr (← result.get? ("playtime"))
  let platforms ← validateStrList platformNames
  let stores ← validateStrList storeNames
  let genres ← validateStrList genreNames
  let released ← strFieldOr (← result.get? ("released"))
  let metacritic ← optIntField (← result.get? ("metacritic"))
  let esrb ← optStrField esrbName
  .ok ⟨name, gameId, playtime, platforms, stores, genres, released, metacritic, esrb⟩

/-- Parse every record of a search-result list in order, propagating the
first raised fault. -/
def createGameObjectsGo : List Json → Except String (List GameDetailsResponse)
  | [] => .ok []
  | r :: rest => do
      let g ← createGameFromResult r
      let tail ← createGameObjectsGo rest
      .ok (g :: tail)

/-- Embedding of `GameDetailsResponse.create_game_objects_from_search_results` :
a falsy input (absent, `None`, or the empty list) yields the empty list; a
truthy list is parsed record by record; a truthy non-list raises. -/
def create_game_objects_from_search_results (search_results : Json) :
    Except String (List GameDetailsResponse) :=
  if search_results.truthy then
    match search_results with
    | .arr results => createGameObjectsGo results
    | _ => .error ("TypeError")
  else .ok []

/-- Embedding of `GameDescriptionResponse.create_description_response_from_json`. -/
def create_description_response_from_json (payload : Json) :
    Except String GameDescriptionResponse := do
  let name ← strFieldOr (← payload.get? ("name"))
  let gameId ← intFieldOr (← payload.get? ("id"))
  let description ← strFieldOr (← payload.get? ("description"))
  .ok ⟨name, gameId, description⟩

/-!
## Tool handlers (src/tools.py)

Each handler first calls the Catalogue Client (`DATABASE....`, which funnels
into `_make_request_with_retry`) and then post-processes the returned
envelope.  The handlers are embedded as functions of that envelope
(`db_response`); the claims compose them with `make_request_with_retry`
explicitly.  The static slug tables live in `constants.py`, which only
`tools.py` imports; since no claim depends on the table contents, the
slug-to-id mappings are parameters of the embedding.
-/

/-- The default error message of `get_game_description` and
`find_game_by_name` when the envelope has no `error` key. -/
def unknownDbErrorMsg : String :=
  "An unknown error occurred while fetching from the database."

/-- The failure envelope built by the handlers. -/
def failureEnvelope (reason : String) : Json :=
  Json.obj [("success", Json.bool false), ("failure_reason", Json.str reason)]

/-- The success envelope built by the handlers. -/
def successEnvelope (results : Json) : Json :=
  Json.obj [("success", Json.bool true), ("results", results)]

/-- Embedding of `get_game_description(game_id)` after the `DATABASE.get_game_details`
call, as a function of the returned envelope: extract the payload, convert a
missing payload or unsuccessful envelope into a `Database error: ...`
failure, and otherwise build the description response inside a
`try/except` that converts any raised fault into a `Parsing error: ...`
failure. -/
def get_game_description (db_response : Json) : Except String Json := do
  let rawg_payload ← db_response.get? ("results")
  let successVal ← db_response.get? ("success")
  if !successVal.truthy || !rawg_payload.truthy then
    let errorMessage ← db_response.getOr ("error") (Json.str unknownDbErrorMsg)
    .ok (failureEnvelope ("Database error: " ++ pyStr errorMessage))
  else
    match create_description_response_from_json rawg_payload with
    | .ok response_object => .ok (successEnvelope response_object.model_dump)
    | .error e => .ok (failureEnvelope ("Parsing error: " ++ e))

/-- The payload extraction
`(db_response or \x7b\x7d).get("results", \x7b\x7d).get("results")` shared by
`find_game_by_name` and `find_multiple_games`. -/
def searchPayload (db_response : Json) : Except String Json := do
  let base := if db_response.truthy then db_response else Json.obj []
  let outer ← base.getOr ("results") (Json.obj [])
  outer.get? ("results")

/-- Embedding of `find_game_by_name(game_name)` after the `DATABASE.search_game_by_name`
call, as a function of the returned envelope.  A falsy payload or an
unsuccessful envelope becomes a `Database error: ...` failure; a payload
that parses to zero objects becomes the `Failed to parse database results.`
failure; otherwise the first 3 parsed records are returned.  Nothing catches
a fault raised by the normalizer here. -/
def find_game_by_name (db_response : Json) : Except String Json := do
  let rawg_payload ← searchPayload db_response
  let successVal ← db_response.get? ("success")
  if !successVal.truthy || !rawg_payload.truthy then
    let errorMessage ← db_response.getOr ("error") (Json.str unknownDbErrorMsg)
    .ok (failureEnvelope ("Database error: " ++ pyStr errorMessage))
  else do
    let game_objects ← create_game_objects_from_search_results rawg_payload
    if game_objects.isEmpty then
      .ok (failureEnvelope ("Failed to parse database results."))
    else
      .ok (successEnvelope
        (Json.arr ((game_objects.take 3).map GameDetailsResponse.model_dump)))

/-- Argument type of `_normalize_list_param(param)` : it takes `None`, a bare string, or a list of
strings (the shapes its callers declare). -/
inductive ListParam where
  | null
  | single (s : String)
  | list (xs : List String)

/-- Embedding of `_normalize_list_param` : `None` becomes `[]`, a list is returned
unchanged, and any other value becomes a single-element list. -/
def normalize_list_param : ListParam → List String
  | .null => []
  | .list xs => xs
  | .single s => [s]

/-- Embedding of `_get_platform_ids(slugs)` with the static table
`PLATFORM_SLUG_TO_ID` (from `constants.py`) as the parameter `table` :
translate each slug, silently dropping unrecognized ones. -/
def get_platform_ids (table : String → Option Int) : List String → List Int
  | [] => []
  | slug :: rest =>
      match table slug with
      | some pid => pid :: get_platform_ids table rest
      | none => get_platform_ids table rest

/-- Embedding of `_get_parent_platform_ids(slugs)` with `PARENT_PLATFORM_SLUG_TO_ID` as a
parameter. -/
def get_parent_platform_ids (table : String → Option Int) : List String → List Int
  | [] => []
  | slug :: rest =>
      match table slug with
      | some pid => pid :: get_parent_platform_ids table rest
      | none => get_parent_platform_ids table rest

/-- Embedding of `_get_store_ids(slugs)` with `STORE_SLUG_TO_ID` as a parameter. -/
def get_store_ids (table : String → Option Int) : List String → List Int
  | [] => []
  | slug :: rest =>
      match table slug with
      | some sid => sid :: get_store_ids table rest
      | none => get_store_ids table rest

/-- The raw arguments of `find_multiple_games`, in the order of its Python
signature. -/
structure FindMultipleGamesArgs where
  num_results : Int
  title : Option String
  parent_platforms : ListParam
  platforms : ListParam
  stores : ListParam
  developers : ListParam
  publishers : ListParam
  genres : ListParam
  tags : ListParam
  release_date_lower_bound : Option String
  release_date_upper_bound : Option String
  metacritic_lower_bound : Option Int
  metacritic_upper_bound : Option Int
  ordering : Option String

/-- The keyword arguments `find_multiple_games` passes to
`DATABASE.find_multiple_games_by_conditions`, in the order of that Python
signature. -/
structure DbConditions where
  release_date_lower_bound : String
  release_date_upper_bound : String
  metacritic_lower_bound : Int
  metacritic_upper_bound : Int
  page_size : Int
  title : Option String
  parent_platform_ids : List Int
  platform_ids : List Int
  store_ids : List Int
  developers : List String
  publishers : List String
  genres : List String
  tags : List String
  ordering : Option String

/-- Python `x or default` on an optional string: `None` and `""` both fall
back to the default. -/
def pyOrStr (v : Option String) (d : String) : String :=
  match v with
  | some s => if s = "" then d else s
  | none => d

/-- The argument-assembly stage of `find_multiple_games` : normalize the
seven list parameters with `_normalize_list_param`, translate the slug lists
through the static tables, default the unset date bounds to
`1800-01-01`/`3000-01-01` and the unset metacritic bounds to `0`/`100`, and
pass everything to `DATABASE.find_multiple_games_by_conditions`. -/
def findMultipleGamesDbArgs (platformTable parentTable storeTable : String → Option Int)
    (args : FindMultipleGamesArgs) : DbConditions :=
  let parent_platforms := normalize_list_param args.parent_platforms
  let platforms := normalize_list_param args.platforms
  let stores := normalize_list_param args.stores
  let developers := normalize_list_param args.developers
  let publishers := normalize_list_param args.publishers
  let genres := normalize_list_param args.genres
  let tags := normalize_list_param args.tags
  ⟨pyOrStr args.release_date_lower_bound ("1800-01-01"),
    pyOrStr args.release_date_upper_bound ("3000-01-01"),
    args.metacritic_lower_bound.getD 0,
    args.metacritic_upper_bound.getD 100,
    args.num_results,
    args.title,
    get_parent_platform_ids parentTable parent_platforms,
    get_platform_ids platformTable platforms,
    get_store_ids storeTable stores,
    developers, publishers, genres, tags,
    args.ordering⟩

/-- The response-handling stage of `find_multiple_games`, as a function of
the envelope returned by the database call.  Like `find_game_by_name` but
with the default message `Unknown database error.` and no cap on the number
of returned records. -/
def findMultipleGamesHandleResponse (db_response : Json) : Except String Json := do
  let rawg_payload ← searchPayload db_response
  let successVal ← db_response.get? ("success")
  if !successVal.truthy || !rawg_payload.truthy then
    let errorMessage ← db_response.getOr ("error") (Json.str ("Unknown database error."))
    .ok (failureEnvelope ("Database error: " ++ pyStr errorMessage))
  else do
    let game_objects ← create_game_objects_from_search_results rawg_payload
    if game_objects.isEmpty then
      .ok (failureEnvelope ("Failed to parse database results."))
    else
      .ok (successEnvelope (Json.arr (game_objects.map GameDetailsResponse.model_dump)))

/-- Embedding of `find_multiple_games` : assemble the database-call arguments, invoke
the database (abstracted as `dbCall`, which funnels into the retrying GET),
and handle the response. -/
def find_multiple_games (platformTable parentTable storeTable : String → Option Int)
    (dbCall : DbConditions → Json) (args : FindMultipleGamesArgs) : Except String Json :=
  findMultipleGamesHandleResponse
    (dbCall (findMultipleGamesDbArgs platformTable parentTable storeTable args))

/-!
## Orchestration Loop (src/app.py)

The OpenAI chat message list is embedded as `List Msg`; a model response
collapses `response.choices[0]` into its finish reason and message.  The
model itself is an oracle from the running conversation to a response, and
the ambient `globals()` namespace used for handler lookup is a partial map
from tool names to handler functions.  `json.loads` on the serialized tool
arguments is modelled by the arguments arriving already decoded.  A handler
may raise (nothing in `handle_tool_calls` catches): the loop result then
records the propagated exception.
-/

/-- One entry of `message.tool_calls` : identifier, function name, decoded
arguments. -/
structure ToolCall where
  id : String
  name : String
  arguments : Json

/-- One conversation message.  Assistant messages carry their requested tool
calls; tool messages carry the originating call id. -/
structure Msg where
  role : String
  content : String
  tool_call_id : Option String
  tool_calls : List ToolCall

/-- Model of `response.choices[0]` : the finish reason and the message. -/
structure ModelResponse where
  finish_reason : String
  message : Msg

/-- The namespace of callable tools, modelling `globals().get(tool_name)` :
each handler takes the decoded arguments and either returns a result dict or
raises. -/
def ToolSpace : Type := String → Option (Json → Except String Json)

/-- The per-call body of `handle_tool_calls` : look the tool up by name and
invoke it, or fall back to the empty dict when the name is unknown. -/
def dispatchToolCall (tools : ToolSpace) (toolName : String) (arguments : Json) :
    Except String Json :=
  match tools toolName with
  | some tool => tool arguments
  | none => .ok (Json.obj [])

/-- Embedding of `handle_tool_calls(tool_calls)` : for each requested call, in order,
dispatch it and append a tool message whose content is the JSON-serialized
result and whose `tool_call_id` is the id of the originating request.  A
raised handler fault aborts the whole round and propagates. -/
def handle_tool_calls (tools : ToolSpace) : List ToolCall → Except String (List Msg)
  | [] => .ok []
  | tc :: rest => do
      let result ← dispatchToolCall tools tc.name tc.arguments
      let others ← handle_tool_calls tools rest
      .ok (⟨"tool", result.dumps, some tc.id, []⟩ :: others)

/-- Result of running the `while not done` loop of `chat` : the final answer
together with the conversation state at that moment, a propagated exception,
or exhaustion of the analysis fuel (the source loop has no iteration cap). -/
inductive ChatResult where
  | answer (text : String) (final : List Msg)
  | exn (msg : String)
  | fuelOut

/-- The `while not done` loop of `chat` : query the model on the current
conversation; when the finish reason is `tool_calls`, run the requested
tools, append the model message and then the tool results, and loop;
otherwise return the response content. -/
def chatLoop (model : List Msg → ModelResponse) (tools : ToolSpace) :
    Nat → List Msg → ChatResult
  | 0, _ => .fuelOut
  | fuel + 1, messages =>
      if (model messages).finish_reason = "tool_calls" then
        match handle_tool_calls tools (model messages).message.tool_calls with
        | .ok results =>
            chatLoop model tools fuel (messages ++ (model messages).message :: results)
        | .error e => .exn e
      else
        .answer (model messages).message.content messages

/-- The persona reminder appended to every user turn by `chat`. -/
def personaReminder : String :=
  "REMINDER: Maintain your persona. Let your gaming knowledge gush out with references, Easter eggs, deep-cut trivia, and self-aware nerd humor. Use ample asterisk actions."

/-- Embedding of `chat(message, history)` : seed the conversation with the system prompt,
the prior history and the augmented user message, then run the loop. -/
def chat (model : List Msg → ModelResponse) (tools : ToolSpace) (fuel : Nat)
    (systemPrompt : String) (history : List Msg) (message : String) : ChatResult :=
  chatLoop model tools fuel
    ([⟨"system", systemPrompt, none, []⟩] ++ history ++
      [⟨"user", message ++ "\n\n" ++ personaReminder, none, []⟩])

/-- The rounds a terminating run of `chatLoop` appends to the conversation:
each round consists of the message of a model response whose finish reason
was `tool_calls`, followed by exactly the tool results `handle_tool_calls`
produced for the calls requested in that message, and the next round
continues from the conversation extended by this round. -/
inductive RoundsFrom (model : List Msg → ModelResponse) (tools : ToolSpace) :
    List Msg → List (List Msg) → Prop where
  | nil (msgs : List Msg) : RoundsFrom model tools msgs []
  | cons (msgs : List Msg) (results : List Msg) (rounds : List (List Msg))
      (hfr : (model msgs).finish_reason = "tool_calls")
      (hres : handle_tool_calls tools (model msgs).message.tool_calls = .ok results)
      (hrest : RoundsFrom model tools (msgs ++ (model msgs).message :: results) rounds) :
      RoundsFrom model tools msgs (((model msgs).message :: results) :: rounds)

/-- Auxiliary: a run of the retry loop that sees `N` failures from attempt
`attempt` on and then a success returns the success envelope after `N + 1`
attempts, sleeping the exponential-backoff delay before each retry. -/
theorem retryGo_success (oracle : Nat → AttemptOutcome) (m : Nat → String) (body : Json)
    (bd : ℚ) (j : Nat → ℚ) :
    ∀ (N remaining attempt : Nat) (lastE : Option String), N < remaining →
      (∀ i, i < N → oracle (attempt + i) = .failure (m (attempt + i))) →
      oracle (attempt + N) = .success body →
      retryGo oracle bd j remaining attempt lastE =
        ⟨Json.obj [("success", Json.bool true), ("results", body)], N + 1,
          (List.range N).map (fun i => bd * 2 ^ (attempt + i) + j (attempt + i))⟩ := by
  intro N
  induction N with
  | zero =>
      intro remaining attempt lastE hlt _ hsucc
      obtain ⟨r, rfl⟩ : ∃ r, remaining = r + 1 := ⟨remaining - 1, by omega⟩
      rw [Nat.add_zero] at hsucc
      simp [retryGo, hsucc]
  | succ N ih =>
      intro remaining attempt lastE hlt hfail hsucc
      obtain ⟨r, rfl⟩ : ∃ r, remaining = r + 1 := ⟨remaining - 1, by omega⟩
      have h0 : oracle attempt = .failure (m attempt) := by
        have h := hfail 0 (by omega)
        rwa [Nat.add_zero] at h
      have hrec := ih r (attempt + 1) (some (m attempt)) (by omega)
        (fun i hi => by
          have h := hfail (i + 1) (by omega)
          have he : attempt + (i + 1) = attempt + 1 + i := by omega
          rwa [he] at h)
        (by
          have he : attempt + 1 + N = attempt + (N + 1) := by omega
          rw [he]; exact hsucc)
      have hr : 0 < r := by omega
      simp only [retryGo, h0, hrec, if_pos hr]
      refine congrArg (RetryResult.mk _ (N + 1 + 1)) ?_
      rw [List.range_succ_eq_map, List.map_cons, List.map_map]
      refine congrArg₂ List.cons (by rw [Nat.add_zero]) ?_
      refine List.map_congr_left (fun i _ => ?_)
      have he : attempt + 1 + i = attempt + (i + 1) := by omega
      simp only [Function.comp, Nat.succ_eq_add_one, he]

/-- Auxiliary: a run of the retry loop in which every remaining attempt fails
returns the failure envelope keyed `error` with the message of the final
failure, after exactly `remaining` attempts, with one backoff delay before
each attempt but the first. -/
theorem retryGo_allFail (oracle : Nat → AttemptOutcome) (m : Nat → String)
    (bd : ℚ) (j : Nat → ℚ) :
    ∀ (remaining attempt : Nat) (lastE : Option String),
      (∀ i, i < remaining → oracle (attempt + i) = .failure (m (attempt + i))) →
      retryGo oracle bd j remaining attempt lastE =
        ⟨Json.obj [("success", Json.bool false), ("error", Json.str (pyStrOption
            (if remaining = 0 then lastE else some (m (attempt + remaining - 1)))))],
          remaining,
          (List.range (remaining - 1)).map (fun i => bd * 2 ^ (attempt + i) + j (attempt + i))⟩ := by
  intro remaining
  induction remaining with
  | zero =>
      intro attempt lastE _
      simp [retryGo]
  | succ r ih =>
      intro attempt lastE hfail
      have h0 : oracle attempt = .failure (m attempt) := by
        have h := hfail 0 (by omega)
        rwa [Nat.add_zero] at h
      have hrec := ih (attempt + 1) (some (m attempt))
        (fun i hi => by
          have h := hfail (i + 1) (by omega)
          have he : attempt + (i + 1) = attempt + 1 + i := by omega
          rwa [he] at h)
      rcases Nat.eq_zero_or_pos r with hr | hr
      · subst hr
        simp only [retryGo, h0, hrec]
        norm_num
      · simp only [retryGo, h0, hrec, if_pos hr]
        have hrne : ¬ r = 0 := by omega
        simp only [hrne, if_false, Nat.succ_ne_zero]
        refine congrArg₂ (fun a b => RetryResult.mk a (r + 1) b) ?_ ?_
        · have he : attempt + 1 + r - 1 = attempt + (r + 1) - 1 := by omega
          rw [he]
        · obtain ⟨q, rfl⟩ : ∃ q, r = q + 1 := ⟨r - 1, by omega⟩
          have hq : q + 1 + 1 - 1 = q + 1 := by omega
          have hq2 : q + 1 - 1 = q := by omega
          rw [hq, hq2, List.range_succ_eq_map, List.map_cons, List.map_map]
          refine congrArg₂ List.cons (by rw [Nat.add_zero]) ?_
          refine List.map_congr_left (fun i _ => ?_)
          have he : attempt + 1 + i = attempt + (i + 1) := by omega
          simp only [Function.comp, Nat.succ_eq_add_one, he]

/-- C1 : for `N` consecutive transport failures followed by a success, with
`N < max_retries`, `_make_request_with_retry` returns the envelope with
`success = True` and `results` = the decoded body, after exactly `N + 1`
attempts, and the result does not depend on what any attempt after the first
success would have returned. -/
theorem retry_success_after_transient_failures (oracle : Nat → AttemptOutcome)
    (m : Nat → String) (body : Json) (N maxRetries : Nat) (bd : ℚ) (j : Nat → ℚ)
    (hN : N < maxRetries)
    (hfail : ∀ i, i < N → oracle i = .failure (m i))
    (hsucc : oracle N = .success body) :
    make_request_with_retry oracle maxRetries bd j =
      ⟨Json.obj [("success", Json.bool true), ("results", body)], N + 1,
        (List.range N).map (fun i => bd * 2 ^ i + j i)⟩ ∧
    ∀ oracle2 : Nat → AttemptOutcome, (∀ i, i ≤ N → oracle2 i = oracle i) →
      make_request_with_retry oracle2 maxRetries bd j =
        make_request_with_retry oracle maxRetries bd j := by
  have key : ∀ oracle3 : Nat → AttemptOutcome,
      (∀ i, i < N → oracle3 i = .failure (m i)) → oracle3 N = .success body →
      make_request_with_retry oracle3 maxRetries bd j =
        ⟨Json.obj [("success", Json.bool true), ("results", body)], N + 1,
          (List.range N).map (fun i => bd * 2 ^ i + j i)⟩ := by
    intro oracle3 hf hs
    have h := retryGo_success oracle3 m body bd j N maxRetries 0 none hN
      (fun i hi => by simpa using hf i hi) (by simpa using hs)
    rw [make_request_with_retry, h]
    refine congrArg (RetryResult.mk _ (N + 1)) ?_
    refine List.map_congr_left (fun i _ => ?_)
    rw [Nat.zero_add]
  refine ⟨key oracle hfail hsucc, fun oracle2 hagree => ?_⟩
  rw [key oracle hfail hsucc,
    key oracle2 (fun i hi => by rw [hagree i (by omega)]; exact hfail i hi)
      (by rw [hagree N (by omega)]; exact hsucc)]

/-- Concrete scenario for C1 : one timeout, then a success. -/
def retrySuccessOracleW : Nat → AttemptOutcome :=
  fun i => if i < 1 then .failure ("timeout") else .success Json.null

/-- Witness for C1 at one failure followed by a success with three allowed
attempts. -/
theorem retry_success_after_transient_failures_witness :
    make_request_with_retry retrySuccessOracleW 3 1 (fun _ => 0) =
      ⟨Json.obj [("success", Json.bool true), ("results", Json.null)], 1 + 1,
        (List.range 1).map (fun i => 1 * 2 ^ i + (fun _ : Nat => (0 : ℚ)) i)⟩ :=
  (retry_success_after_transient_failures retrySuccessOracleW (fun _ => "timeout")
    Json.null 1 3 1 (fun _ => 0) (by omega)
    (fun i hi => by
      have : i = 0 := by omega
      subst this; rfl)
    rfl).1

/-- C2 counterexample : after three consecutive transport failures the
returned envelope has no `failure_reason` key at all; the message sits under
the key `error`. -/
theorem retry_exhaustion_envelope_lacks_failure_reason :
    Json.get? (make_request_with_retry (fun _ => .failure ("Connection refused")) 3 1
        (fun _ => 0)).envelope ("failure_reason") = .ok Json.null ∧
    Json.get? (make_request_with_retry (fun _ => .failure ("Connection refused")) 3 1
        (fun _ => 0)).envelope ("error") = .ok (Json.str ("Connection refused")) :=
  ⟨rfl, rfl⟩

/-- C2 (amended) : for `max_retries` consecutive transport failures the
retrying GET returns, without raising, after exactly `max_retries` attempts,
the envelope with `success = False` and the last transport error message
under the key `error` (not `failure_reason`). -/
theorem retry_exhaustion_returns_error_envelope (oracle : Nat → AttemptOutcome)
    (m : Nat → String) (maxRetries : Nat) (bd : ℚ) (j : Nat → ℚ)
    (hpos : 1 ≤ maxRetries)
    (hfail : ∀ i, i < maxRetries → oracle i = .failure (m i)) :
    make_request_with_retry oracle maxRetries bd j =
      ⟨Json.obj [("success", Json.bool false), ("error", Json.str (m (maxRetries - 1)))],
        maxRetries,
        (List.range (maxRetries - 1)).map (fun i => bd * 2 ^ i + j i)⟩ := by
  have h := retryGo_allFail oracle m bd j maxRetries 0 none
    (fun i hi => by simpa using hfail i hi)
  rw [make_request_with_retry, h]
  have hne : ¬ maxRetries = 0 := by omega
  simp only [hne, if_false]
  refine congrArg₂ (fun a b => RetryResult.mk
    (Json.obj [("success", Json.bool false), ("error", Json.str a)]) maxRetries b) ?_ ?_
  · rw [Nat.zero_add]; rfl
  · refine List.map_congr_left (fun i _ => ?_)
    rw [Nat.zero_add]

/-- Witness for C2 (amended) at three identical failures. -/
theorem retry_exhaustion_returns_error_envelope_witness :
    make_request_with_retry (fun _ => .failure ("no route to host")) 3 1 (fun _ => 0) =
      ⟨Json.obj [("success", Json.bool false), ("error", Json.str ("no route to host"))],
        3, (List.range 2).map (fun i => 1 * 2 ^ i + (fun _ : Nat => (0 : ℚ)) i)⟩ :=
  retry_exhaustion_returns_error_envelope (fun _ => .failure ("no route to host"))
    (fun _ => "no route to host") 3 1 (fun _ => 0) (by omega) (fun i _ => rfl)

/-- C5 : within one exhausting call, the delay slept before 1-indexed attempt
`k` (`k ≥ 2`) is `base_delay * 2 ^ (k - 2) + jitter`, where the jitter values
are the draws of `random.uniform(0, 0.1)`; with the default
`base_delay = 1.0` and jitter in `[0, 0.1)`, the successive delays are
strictly increasing. -/
theorem retry_backoff_delay_schedule (oracle : Nat → AttemptOutcome) (m : Nat → String)
    (maxRetries : Nat) (bd : ℚ) (j : Nat → ℚ)
    (hfail : ∀ i, i < maxRetries → oracle i = .failure (m i))
    (hj : ∀ i, 0 ≤ j i ∧ j i < 1 / 10) :
    (∀ k, 2 ≤ k → k ≤ maxRetries →
        (make_request_with_retry oracle maxRetries bd j).delays[k - 2]? =
          some (bd * 2 ^ (k - 2) + j (k - 2))) ∧
    (bd = 1 → (make_request_with_retry oracle maxRetries bd j).delays.Pairwise (· < ·)) := by
  have h := retryGo_allFail oracle m bd j maxRetries 0 none
    (fun i hi => by simpa using hfail i hi)
  have hdel : (make_request_with_retry oracle maxRetries bd j).delays
      = (List.range (maxRetries - 1)).map (fun i => bd * 2 ^ i + j i) := by
    rw [make_request_with_retry, h]
    refine List.map_congr_left (fun i _ => ?_)
    rw [Nat.zero_add]
  refine ⟨fun k h2 hk => ?_, fun hbd => ?_⟩
  · rw [hdel, List.getElem?_map, List.getElem?_range (by omega : k - 2 < maxRetries - 1)]
    rfl
  · subst hbd
    rw [hdel]
    refine List.Pairwise.map _ (fun a b hab => ?_) (List.pairwise_lt_range _)
    have h1 : (1 : ℚ) ≤ 2 ^ a := by
      calc (1 : ℚ) = 2 ^ 0 := by norm_num
      _ ≤ 2 ^ a := pow_le_pow_right₀ one_le_two (Nat.zero_le a)
    have h2 : (2 : ℚ) ^ (a + 1) ≤ 2 ^ b := pow_le_pow_right₀ one_le_two (by omega)
    have h3 : (2 : ℚ) ^ (a + 1) = 2 * 2 ^ a := by ring
    have hja := hj a
    have hjb := hj b
    linarith

/-- Witness for C5 : with default base delay and zero jitter over three
failing attempts, the slept delays are strictly increasing. -/
theorem retry_backoff_delay_schedule_witness :
    (make_request_with_retry (fun _ => .failure ("err")) 3 1 (fun _ => (0 : ℚ))).delays.Pairwise
      (· < ·) :=
  (retry_backoff_delay_schedule (fun _ => .failure ("err")) (fun _ => "err") 3 1
    (fun _ => 0) (fun _ _ => rfl) (fun _ => by norm_num)).2 rfl

/-- Bind on an ok value reduces to the continuation. -/
theorem ok_bind (a : α) (f : α → Except String β) : (Except.ok a >>= f) = f a := rfl

/-- Bind on an error value propagates the error. -/
theorem error_bind (e : String) (f : α → Except String β) :
    (Except.error e >>= f : Except String β) = Except.error e := rfl

/-- C3 counterexample : when the Catalogue Client succeeds but the provider
returns zero matches, `find_game_by_name` reports
`Database error: An unknown error occurred while fetching from the database.`,
not the claimed `Failed to parse database results.`. -/
theorem find_game_by_name_zero_matches_reason :
    find_game_by_name (Json.obj [("success", Json.bool true),
        ("results", Json.obj [("results", Json.arr [])])])
      = .ok (failureEnvelope ("Database error: " ++ unknownDbErrorMsg)) ∧
    ("Database error: " ++ unknownDbErrorMsg) ≠ "Failed to parse database results." :=
  ⟨rfl, by decide⟩

/-- C3 (amended) : whenever the Catalogue Client succeeds and the decoded
body carries an empty `results` list (zero provider matches),
`find_game_by_name` returns the failure envelope with reason
`Database error: An unknown error occurred while fetching from the database.`
— the same `Database error:` shape as a transport failure, with the default
message in place of a transport message. -/
theorem find_game_by_name_zero_matches (fs : List (String × Json))
    (h : assocLookup fs ("results") = some (Json.arr [])) :
    find_game_by_name (Json.obj [("success", Json.bool true), ("results", Json.obj fs)])
      = .ok (failureEnvelope ("Database error: " ++ unknownDbErrorMsg)) := by
  simp [find_game_by_name, searchPayload, Json.get?, Json.getOr, Json.truthy,
    assocLookup, h, pyStr, ok_bind]

/-- Witness for C3 (amended) at a body holding exactly an empty result list. -/
theorem find_game_by_name_zero_matches_witness :
    find_game_by_name (Json.obj [("success", Json.bool true),
        ("results", Json.obj [("results", Json.arr [])])])
      = .ok (failureEnvelope ("Database error: " ++ unknownDbErrorMsg)) :=
  find_game_by_name_zero_matches [("results", Json.arr [])] rfl

/-- C6 : when the provider is unreachable for all 3 attempts, the retrying
GET yields the failure envelope; each of the three database-backed tool
handlers converts it, without raising, into
`success = False, failure_reason = "Database error: <last transport error>"`;
and `handle_tool_calls` appends exactly a ToolResult turn carrying that
serialized envelope under the originating call id. -/
theorem db_unreachable_handlers_return_database_error (oracle : Nat → AttemptOutcome)
    (m : Nat → String) (j : Nat → ℚ) (pt ppt st : String → Option Int)
    (fmArgs : FindMultipleGamesArgs) (cid : String) (callArgs : Json)
    (hfail : ∀ i, i < 3 → oracle i = .failure (m i)) :
    (make_request_with_retry oracle 3 1 j).envelope
        = Json.obj [("success", Json.bool false), ("error", Json.str (m 2))] ∧
    get_game_description (make_request_with_retry oracle 3 1 j).envelope
        = .ok (failureEnvelope ("Database error: " ++ m 2)) ∧
    find_game_by_name (make_request_with_retry oracle 3 1 j).envelope
        = .ok (failureEnvelope ("Database error: " ++ m 2)) ∧
    find_multiple_games pt ppt st (fun _ => (make_request_with_retry oracle 3 1 j).envelope)
        fmArgs = .ok (failureEnvelope ("Database error: " ++ m 2)) ∧
    handle_tool_calls
        (fun n => if n = "find_game_by_name" then
            some (fun _ => find_game_by_name (make_request_with_retry oracle 3 1 j).envelope)
          else none)
        [⟨cid, "find_game_by_name", callArgs⟩]
      = .ok [⟨"tool", (failureEnvelope ("Database error: " ++ m 2)).dumps, some cid, []⟩] := by
  have henv : (make_request_with_retry oracle 3 1 j).envelope
      = Json.obj [("success", Json.bool false), ("error", Json.str (m 2))] := by
    rw [make_request_with_retry,
      retryGo_allFail oracle m 1 j 3 0 none (fun i hi => by simpa using hfail i hi)]
    norm_num [pyStrOption]
  have hfind : find_game_by_name (make_request_with_retry oracle 3 1 j).envelope
      = .ok (failureEnvelope ("Database error: " ++ m 2)) := by
    rw [henv]
    simp [find_game_by_name, searchPayload, Json.get?, Json.getOr, Json.truthy,
      assocLookup, pyStr, ok_bind]
  refine ⟨henv, ?_, hfind, ?_, ?_⟩
  · rw [henv]
    simp [get_game_description, Json.get?, Json.getOr, Json.truthy, assocLookup,
      pyStr, ok_bind]
  · rw [find_multiple_games, henv]
    simp [findMultipleGamesHandleResponse, searchPayload, Json.get?, Json.getOr,
      Json.truthy, assocLookup, pyStr, ok_bind]
  · simp [handle_tool_calls, dispatchToolCall, hfind, ok_bind]

/-- Concrete unreachable-provider oracle for the C6 witness. -/
def unreachableOracleW : Nat → AttemptOutcome :=
  fun _ => .failure ("Connection refused")

/-- Witness for C6 : the ToolResult turn appended for `find_game_by_name`
under an unreachable provider carries the serialized failure envelope and
the originating call id. -/
theorem db_unreachable_handlers_return_database_error_witness :
    handle_tool_calls
        (fun n => if n = "find_game_by_name" then
            some (fun _ =>
              find_game_by_name (make_request_with_retry unreachableOracleW 3 1
                (fun _ => 0)).envelope)
          else none)
        [⟨"call_7", "find_game_by_name", Json.obj []⟩]
      = .ok [⟨"tool", (failureEnvelope ("Database error: Connection refused")).dumps,
          some ("call_7"), []⟩] :=
  (db_unreachable_handlers_return_database_error unreachableOracleW
    (fun _ => "Connection refused") (fun _ => 0) (fun _ => none) (fun _ => none)
    (fun _ => none) ⟨5, none, .null, .null, .null, .null, .null, .null, .null,
      none, none, none, none, none⟩ "call_7" (Json.obj [])
    (fun _ _ => rfl)).2.2.2.2

/-- C10 : whenever `find_game_by_name` returns a success envelope, its
`results` field is exactly the first 3 parsed matches serialized, hence at
most 3 records, even when the provider returned more. -/
theorem find_game_by_name_caps_results (db env : Json)
    (hok : find_game_by_name db = .ok env)
    (hsucc : Json.get? env ("success") = .ok (Json.bool true)) :
    ∃ payload games, searchPayload db = .ok payload ∧
      create_game_objects_from_search_results payload = .ok games ∧
      Json.get? env ("results")
        = .ok (Json.arr ((games.take 3).map GameDetailsResponse.model_dump)) ∧
      ((games.take 3).map GameDetailsResponse.model_dump).length ≤ 3 := by
  rw [find_game_by_name] at hok
  cases hsp : searchPayload db with
  | error e => rw [hsp, error_bind] at hok; exact Except.noConfusion hok
  | ok payload =>
  rw [hsp, ok_bind] at hok
  cases hsv : Json.get? db ("success") with
  | error e => rw [hsv, error_bind] at hok; exact Except.noConfusion hok
  | ok sv =>
  rw [hsv, ok_bind] at hok
  by_cases hc : (!sv.truthy || !payload.truthy) = true
  · rw [if_pos hc] at hok
    cases hgo : Json.getOr db ("error") (Json.str unknownDbErrorMsg) with
    | error e => rw [hgo, error_bind] at hok; exact Except.noConfusion hok
    | ok em =>
      rw [hgo, ok_bind] at hok
      injection hok with h
      rw [← h] at hsucc
      simp [failureEnvelope, Json.get?, assocLookup] at hsucc
  · rw [if_neg hc] at hok
    cases hcg : create_game_objects_from_search_results payload with
    | error e => rw [hcg, error_bind] at hok; exact Except.noConfusion hok
    | ok games =>
    rw [hcg, ok_bind] at hok
    by_cases hge : games.isEmpty = true
    · rw [if_pos hge] at hok
      injection hok with h
      rw [← h] at hsucc
      simp [failureEnvelope, Json.get?, assocLookup] at hsucc
    · rw [if_neg hge] at hok
      injection hok with h
      refine ⟨payload, games, rfl, hcg, ?_, ?_⟩
      · rw [← h]
        simp [successEnvelope, Json.get?, assocLookup]
      · simp [List.length_map, List.length_take]

/-- Concrete four-match payload for the C10 witness. -/
def fourMatchDbResponseW : Json :=
  Json.obj [("success", Json.bool true), ("results", Json.obj [("results",
    Json.arr [Json.obj [("id", Json.int 1)], Json.obj [("id", Json.int 2)],
      Json.obj [("id", Json.int 3)], Json.obj [("id", Json.int 4)]])])]

/-- The envelope `find_game_by_name` produces for the four-match payload. -/
def fourMatchEnvelopeW : Json :=
  successEnvelope (Json.arr
    ((([⟨"", 1, 0, [], [], [], "", none, none⟩, ⟨"", 2, 0, [], [], [], "", none, none⟩,
        ⟨"", 3, 0, [], [], [], "", none, none⟩, ⟨"", 4, 0, [], [], [], "", none, none⟩] :
        List GameDetailsResponse).take 3).map GameDetailsResponse.model_dump))

/-- Witness for C10 at a provider response holding four matches. -/
theorem find_game_by_name_caps_results_witness :
    ∃ payload games, searchPayload fourMatchDbResponseW = .ok payload ∧
      create_game_objects_from_search_results payload = .ok games ∧
      Json.get? fourMatchEnvelopeW ("results")
        = .ok (Json.arr ((games.take 3).map GameDetailsResponse.model_dump)) ∧
      ((games.take 3).map GameDetailsResponse.model_dump).length ≤ 3 :=
  find_game_by_name_caps_results fourMatchDbResponseW fourMatchEnvelopeW (by rfl) (by rfl)

/-- Lemma : `handle_tool_calls` distributes over list append: the results for the
two halves are computed independently and concatenated. -/
theorem handle_tool_calls_append (tools : ToolSpace) (l1 l2 : List ToolCall) :
    handle_tool_calls tools (l1 ++ l2) = (do
      let a ← handle_tool_calls tools l1
      let b ← handle_tool_calls tools l2
      Except.ok (a ++ b)) := by
  induction l1 with
  | nil =>
      cases h2 : handle_tool_calls tools l2 <;>
        simp [handle_tool_calls, h2, ok_bind, error_bind]
  | cons p rest ih =>
      simp only [List.cons_append, handle_tool_calls]
      cases hd : dispatchToolCall tools p.name p.arguments with
      | error e => simp [error_bind]
      | ok r =>
          simp only [ok_bind, List.append_eq]
          rw [ih]
          cases hr : handle_tool_calls tools rest with
          | error e => simp [error_bind]
          | ok a =>
              simp only [ok_bind]
              cases h2 : handle_tool_calls tools l2 with
              | error e => simp [error_bind]
              | ok b => simp [ok_bind]

/-- C7 : a tool call whose name is not in the ambient namespace dispatches
to the empty dict without raising, and `handle_tool_calls` still appends a
ToolResult turn for it, carrying the serialized empty envelope under the
originating call id, in its requested position; the other calls of the round
are unaffected. -/
theorem dispatch_unknown_tool_neutral (tools : ToolSpace) (tc : ToolCall)
    (h : tools tc.name = none) (pre post : List ToolCall) :
    dispatchToolCall tools tc.name tc.arguments = .ok (Json.obj []) ∧
    handle_tool_calls tools (pre ++ tc :: post) = (do
      let before ← handle_tool_calls tools pre
      let later ← handle_tool_calls tools post
      Except.ok (before ++ ⟨"tool", (Json.obj []).dumps, some tc.id, []⟩ :: later)) := by
  have hd : dispatchToolCall tools tc.name tc.arguments = .ok (Json.obj []) := by
    rw [dispatchToolCall, h]
  refine ⟨hd, ?_⟩
  simp only [handle_tool_calls_append, handle_tool_calls, hd, ok_bind]
  cases hp : handle_tool_calls tools pre <;>
    cases hq : handle_tool_calls tools post <;>
    simp [ok_bind, error_bind]

/-- Witness for C7 : an unknown tool name between two known-free rounds still
produces its neutral ToolResult. -/
theorem dispatch_unknown_tool_neutral_witness :
    dispatchToolCall (fun _ => none) ("summon_dragon") Json.null = .ok (Json.obj []) ∧
    handle_tool_calls (fun _ => none) ([] ++ (⟨"call_3", "summon_dragon", Json.null⟩ : ToolCall) :: []) = (do
      let before ← handle_tool_calls (fun _ => none) []
      let later ← handle_tool_calls (fun _ => none) []
      Except.ok (before ++ ⟨"tool", (Json.obj []).dumps, some ("call_3"), []⟩ :: later)) :=
  dispatch_unknown_tool_neutral (fun _ => none) ⟨"call_3", "summon_dragon", Json.null⟩
    rfl [] []

/-- C8 : the argument assembly of `find_multiple_games` feeds every
list-typed parameter through `_normalize_list_param` before the database
call: a bare scalar becomes a single-element list, `None` becomes the empty
list, and a list passes through unchanged. -/
theorem find_multiple_games_normalizes_list_params
    (pt ppt st : String → Option Int) (args : FindMultipleGamesArgs) :
    (findMultipleGamesDbArgs pt ppt st args).developers
        = normalize_list_param args.developers ∧
    (findMultipleGamesDbArgs pt ppt st args).publishers
        = normalize_list_param args.publishers ∧
    (findMultipleGamesDbArgs pt ppt st args).genres
        = normalize_list_param args.genres ∧
    (findMultipleGamesDbArgs pt ppt st args).tags
        = normalize_list_param args.tags ∧
    (findMultipleGamesDbArgs pt ppt st args).parent_platform_ids
        = get_parent_platform_ids ppt (normalize_list_param args.parent_platforms) ∧
    (findMultipleGamesDbArgs pt ppt st args).platform_ids
        = get_platform_ids pt (normalize_list_param args.platforms) ∧
    (findMultipleGamesDbArgs pt ppt st args).store_ids
        = get_store_ids st (normalize_list_param args.stores) ∧
    (∀ s, normalize_list_param (ListParam.single s) = [s]) ∧
    normalize_list_param ListParam.null = [] ∧
    (∀ xs, normalize_list_param (ListParam.list xs) = xs) :=
  ⟨rfl, rfl, rfl, rfl, rfl, rfl, rfl, fun _ => rfl, rfl, fun _ => rfl⟩

/-- C9 counterexample : a record whose `platforms` entry wraps a null
sub-object (`platform` key present but `None`) makes the normalizer raise
`AttributeError` (the source calls `.get("name")` on the `None` wrapper), so
normalization is not total over records with null fields. -/
theorem normalizer_raises_on_null_wrapper :
    create_game_objects_from_search_results
        (Json.arr [Json.obj [("platforms", Json.arr [Json.obj [("platform", Json.null)]])]])
      = .error ("AttributeError") := rfl

/-- A key that is absent or null reads back as null through `dict.get`. -/
theorem get_null_of_lookup (fs : List (String × Json)) (k : String)
    (h : assocLookup fs k = none ∨ assocLookup fs k = some Json.null) :
    Json.get? (Json.obj fs) k = .ok Json.null := by
  rcases h with h | h <;> simp [Json.get?, h]

/-- C9 (amended) : the normalizer never raises and yields the documented
defaults (empty strings, zero id and playtime, empty lists, null rating) for
any record whose fields are absent or null at the record level, drops nested
platform/store/genre entries whose wrapping sub-object is absent, lacks a
name, or has a falsy name, and maps an empty or absent input list to the
empty sequence — but a nested entry whose wrapper field is present and null
raises instead of being dropped. -/
theorem normalizer_defaults_on_absent_or_null_fields (fs : List (String × Json))
    (h : ∀ k, k ∈ (["name", "id", "playtime", "platforms", "stores", "genres",
        "released", "metacritic", "esrb_rating", "description"] : List String) →
      assocLookup fs k = none ∨ assocLookup fs k = some Json.null) :
    create_game_objects_from_search_results Json.null = .ok [] ∧
    create_game_objects_from_search_results (Json.arr []) = .ok [] ∧
    create_game_objects_from_search_results (Json.arr [Json.obj fs])
      = .ok [⟨"", 0, 0, [], [], [], "", none, none⟩] ∧
    create_description_response_from_json (Json.obj fs) = .ok ⟨"", 0, ""⟩ ∧
    create_game_objects_from_search_results
        (Json.arr [Json.obj [("platforms", Json.arr [Json.obj [],
            Json.obj [("platform", Json.obj [("name", Json.str ("PC"))])],
            Json.obj [("platform", Json.obj [])],
            Json.obj [("platform", Json.obj [("name", Json.null)])]])]])
      = .ok [⟨"", 0, 0, ["PC"], [], [], "", none, none⟩] := by
  have hname := get_null_of_lookup fs ("name") (h _ (by simp))
  have hid := get_null_of_lookup fs ("id") (h _ (by simp))
  have hpt := get_null_of_lookup fs ("playtime") (h _ (by simp))
  have hplat := get_null_of_lookup fs ("platforms") (h _ (by simp))
  have hst := get_null_of_lookup fs ("stores") (h _ (by simp))
  have hgen := get_null_of_lookup fs ("genres") (h _ (by simp))
  have hrel := get_null_of_lookup fs ("released") (h _ (by simp))
  have hmc := get_null_of_lookup fs ("metacritic") (h _ (by simp))
  have hesrb := get_null_of_lookup fs ("esrb_rating") (h _ (by simp))
  have hdesc := get_null_of_lookup fs ("description") (h _ (by simp))
  refine ⟨rfl, rfl, ?_, ?_, rfl⟩
  · simp [create_game_objects_from_search_results, Json.truthy, createGameObjectsGo,
      createGameFromResult, hname, hid, hpt, hplat, hst, hgen, hrel, hmc, hesrb,
      listFieldOr, collectWrappedNames, collectNames, validateStrList, extractEsrb,
      strFieldOr, intFieldOr, optIntField, optStrField, ok_bind]
  · simp [create_description_response_from_json, hname, hid, hdesc, strFieldOr,
      intFieldOr, Json.truthy, ok_bind]

/-- Witness for C9 (amended) at the empty record, whose every lookup is
absent. -/
theorem normalizer_defaults_on_absent_or_null_fields_witness :
    create_game_objects_from_search_results Json.null = .ok [] ∧
    create_game_objects_from_search_results (Json.arr []) = .ok [] ∧
    create_game_objects_from_search_results (Json.arr [Json.obj []])
      = .ok [⟨"", 0, 0, [], [], [], "", none, none⟩] ∧
    create_description_response_from_json (Json.obj []) = .ok ⟨"", 0, ""⟩ ∧
    create_game_objects_from_search_results
        (Json.arr [Json.obj [("platforms", Json.arr [Json.obj [],
            Json.obj [("platform", Json.obj [("name", Json.str ("PC"))])],
            Json.obj [("platform", Json.obj [])],
            Json.obj [("platform", Json.obj [("name", Json.null)])]])]])
      = .ok [⟨"", 0, 0, ["PC"], [], [], "", none, none⟩] :=
  normalizer_defaults_on_absent_or_null_fields [] (fun _ _ => Or.inl rfl)

/-- The ToolResult turns built by `handle_tool_calls` carry, in request
order, exactly the call ids of the requested tool calls, with role `tool`. -/
theorem handle_tool_calls_ids (tools : ToolSpace) :
    ∀ (tcs : List ToolCall) (results : List Msg),
      handle_tool_calls tools tcs = .ok results →
      results.map Msg.tool_call_id = tcs.map (fun tc => some tc.id) ∧
      results.map Msg.role = tcs.map (fun _ => "tool") := by
  intro tcs
  induction tcs with
  | nil =>
      intro results hok
      rw [handle_tool_calls] at hok
      injection hok with h
      subst h
      exact ⟨rfl, rfl⟩
  | cons tc rest ih =>
      intro results hok
      rw [handle_tool_calls] at hok
      cases hd : dispatchToolCall tools tc.name tc.arguments with
      | error e => rw [hd, error_bind] at hok; exact Except.noConfusion hok
      | ok r =>
          rw [hd, ok_bind] at hok
          cases hr : handle_tool_calls tools rest with
          | error e => rw [hr, error_bind] at hok; exact Except.noConfusion hok
          | ok others =>
              rw [hr, ok_bind] at hok
              injection hok with h
              subst h
              have hih := ih others hr
              simp [List.map_cons, hih.1, hih.2]

/-- C4 : a terminating run of the chat loop yields its answer only from a
model response whose finish reason is not `tool_calls`; the conversation only
grows by whole rounds, each consisting of the model message of a
`tool_calls` response followed by the tool results `handle_tool_calls`
produced for exactly the calls requested in that message; and within each
round the ToolResult turns carry, in request order, the call ids of that
model message. -/
theorem chat_loop_invariant (model : List Msg → ModelResponse) (tools : ToolSpace) :
    ∀ (fuel : Nat) (msgs0 final : List Msg) (ans : String),
      chatLoop model tools fuel msgs0 = .answer ans final →
      (model final).finish_reason ≠ "tool_calls" ∧
      ans = (model final).message.content ∧
      ∃ rounds : List (List Msg),
        final = msgs0 ++ rounds.flatten ∧
        RoundsFrom model tools msgs0 rounds ∧
        ∀ r ∈ rounds, ∃ mm results, r = mm :: results ∧
          results.map Msg.tool_call_id = mm.tool_calls.map (fun tc => some tc.id) := by
  intro fuel
  induction fuel with
  | zero => intro msgs0 final ans hok; exact ChatResult.noConfusion hok
  | succ fuel ih =>
      intro msgs0 final ans hok
      rw [chatLoop] at hok
      by_cases hfr : (model msgs0).finish_reason = "tool_calls"
      · rw [if_pos hfr] at hok
        cases hres : handle_tool_calls tools (model msgs0).message.tool_calls with
        | error e =>
            rw [hres] at hok
            simp only [] at hok
            exact ChatResult.noConfusion hok
        | ok results =>
            rw [hres] at hok
            simp only [] at hok
            obtain ⟨h1, h2, rounds, hfin, hrf, hper⟩ := ih _ _ _ hok
            refine ⟨h1, h2, ((model msgs0).message :: results) :: rounds, ?_, ?_, ?_⟩
            · rw [hfin]
              simp [List.append_assoc]
            · exact RoundsFrom.cons msgs0 results rounds hfr hres hrf
            · intro r hr
              rcases List.mem_cons.mp hr with rfl | hr
              · exact ⟨(model msgs0).message, results, rfl,
                  (handle_tool_calls_ids tools _ _ hres).1⟩
              · exact hper r hr
      · rw [if_neg hfr] at hok
        injection hok with ha hf
        subst ha
        subst hf
        exact ⟨hfr, rfl, [], by simp, RoundsFrom.nil msgs0, by simp⟩

/-- Model oracle for the C4 witness: request one tool call on the seed
conversation, then finish. -/
def chatModelW : List Msg → ModelResponse := fun msgs =>
  if msgs.length = 1 then
    ⟨"tool_calls", ⟨"assistant", "", none, [⟨"call_1", "get_current_date", Json.obj []⟩]⟩⟩
  else ⟨"stop", ⟨"assistant", "All done", none, []⟩⟩

/-- Tool namespace for the C4 witness. -/
def chatToolsW : ToolSpace := fun n =>
  if n = "get_current_date" then
    some (fun _ => .ok (Json.obj [("success", Json.bool true)]))
  else none

/-- The conversation state at the moment the C4 witness run answers. -/
def chatFinalW : List Msg :=
  [⟨"system", "sys", none, []⟩,
   ⟨"assistant", "", none, [⟨"call_1", "get_current_date", Json.obj []⟩]⟩,
   ⟨"tool", (Json.obj [("success", Json.bool true)]).dumps, some ("call_1"), []⟩]

/-- Witness for C4 on a one-round run with a single tool call. -/
theorem chat_loop_invariant_witness :
    (chatModelW chatFinalW).finish_reason ≠ "tool_calls" ∧
    "All done" = (chatModelW chatFinalW).message.content ∧
    ∃ rounds : List (List Msg),
      chatFinalW = [⟨"system", "sys", none, []⟩] ++ rounds.flatten ∧
      RoundsFrom chatModelW chatToolsW [⟨"system", "sys", none, []⟩] rounds ∧
      ∀ r ∈ rounds, ∃ mm results, r = mm :: results ∧
        results.map Msg.tool_call_id = mm.tool_calls.map (fun tc => some tc.id) :=
  chat_loop_invariant chatModelW chatToolsW 2 [⟨"system", "sys", none, []⟩]
    chatFinalW ("All done") (by rfl)
